import Mathlib

/-!
Shallow embedding of `src/SummarizationBenchmark/PythonScripts/summarize.py`.

Strings are modelled as lists of characters (`Chars`).  Calls into the
external model libraries (MLX `generate`, transformers `pipeline`, model
loading) are modelled by their outcomes, passed in as explicit parameters:
`none` stands for an adapter that raised (and whose exception was caught),
`some s` for an adapter that produced the string `s`.
-/

set_option autoImplicit false

abbrev Chars := List Char

/-- Character list of a string literal. -/
def chars (s : String) : Chars := s.data

/-- Python `s.lower()` (ASCII-relevant part). -/
def lowerStr (s : Chars) : Chars := s.map Char.toLower

/-- Python `pat in s` (substring containment). -/
def containsSub (pat : Chars) : Chars → Bool
  | [] => pat.isEmpty
  | c :: rest => pat.isPrefixOf (c :: rest) || containsSub pat rest

/-- Python `s.split(pat)[0]`: the part of `s` strictly before the first
occurrence of `pat` (all of `s` when `pat` does not occur). -/
def beforeFirst (pat : Chars) : Chars → Chars
  | [] => []
  | c :: rest => if pat.isPrefixOf (c :: rest) then [] else c :: beforeFirst pat rest

/-- The part of `s` strictly after the first occurrence of `pat`
(`[]` when `pat` does not occur). -/
def afterFirst (pat : Chars) : Chars → Chars
  | [] => []
  | c :: rest =>
    if pat.isPrefixOf (c :: rest) then (c :: rest).drop pat.length
    else afterFirst pat rest

/-- Python `s.replace(pat, "")`: removes every (non-overlapping, leftmost)
occurrence of `pat` from `s`; with an empty `pat` it is the identity,
matching Python's `s.replace("", "")`. -/
def pyRemove (pat : Chars) : Chars → Chars
  | [] => []
  | c :: rest =>
    if h : pat ≠ [] ∧ pat.isPrefixOf (c :: rest) then
      pyRemove pat ((c :: rest).drop pat.length)
    else
      c :: pyRemove pat rest
termination_by s => s.length
decreasing_by
  · have hpos : 0 < pat.length := List.length_pos.mpr h.1
    simp only [List.length_drop, List.length_cons]
    omega
  · simp [Nat.lt_succ_self]

/-- Python `s.strip()`: drops whitespace from both ends. -/
def pyStrip (s : Chars) : Chars :=
  ((s.dropWhile Char.isWhitespace).reverse.dropWhile Char.isWhitespace).reverse

/-! ### Prompt templates (`create_prompt_for_model`, lines 77-114) -/

def smollmTemplate (text : Chars) : Chars :=
  chars "Summarize the following text concisely:\n\n" ++ text ++ chars "\n\nSummary:"

def gemmaTemplate (text : Chars) : Chars :=
  chars "<start_of_turn>user\nPlease provide a concise summary of the following text:\n"
    ++ text ++ chars "\n<end_of_turn>\n<start_of_turn>model\n"

def llamaTemplate (text : Chars) : Chars :=
  chars "<|begin_of_text|><|start_header_id|>user<|end_header_id|>\n\nPlease summarize the following text:\n"
    ++ text ++ chars "<|eot_id|><|start_header_id|>assistant<|end_header_id|>\n\n"

def phiTemplate (text : Chars) : Chars :=
  chars "<|user|>\nSummarize this text:\n" ++ text ++ chars "\n<|assistant|>\n"

def genericTemplate (text : Chars) : Chars :=
  chars "Summarize the following text:\n\n" ++ text ++ chars "\n\nSummary:"

/-- `create_prompt_for_model(text, model_name)` (lines 77-114). -/
def create_prompt_for_model (text model_name : Chars) : Chars :=
  if containsSub (chars "smollm") (lowerStr model_name) then smollmTemplate text
  else if containsSub (chars "gemma") (lowerStr model_name) then gemmaTemplate text
  else if containsSub (chars "llama") (lowerStr model_name) then llamaTemplate text
  else if containsSub (chars "phi") (lowerStr model_name) then phiTemplate text
  else genericTemplate text

/-! ### MLX adapter (`summarize_with_mlx`, lines 116-174) -/

/-- The family-specific end marker used by the MLX extraction branches
(lines 151-160): gemma models use the end-of-turn tag, llama models the
eot tag; other families have no marker-based branch. -/
def mlxEndMarker (model_name : Chars) : Option Chars :=
  if containsSub (chars "gemma") (lowerStr model_name) then some (chars "<end_of_turn>")
  else if containsSub (chars "llama") (lowerStr model_name) then some (chars "<|eot_id|>")
  else none

/-- Summary extraction from the MLX generation response (lines 150-164). -/
def extractMlxSummary (model_name prompt response : Chars) : Chars :=
  if containsSub (chars "gemma") (lowerStr model_name) then
    if containsSub (chars "<end_of_turn>") response then
      pyStrip (beforeFirst (chars "<end_of_turn>") response)
    else
      pyStrip (pyRemove prompt response)
  else if containsSub (chars "llama") (lowerStr model_name) then
    if containsSub (chars "<|eot_id|>") response then
      pyStrip (beforeFirst (chars "<|eot_id|>") response)
    else
      pyStrip (pyRemove prompt response)
  else if containsSub (chars "Summary:") response then
    pyStrip (beforeFirst (chars "Summary:") (afterFirst (chars "Summary:") response))
  else
    pyStrip (pyRemove prompt response)

/-- `summarize_with_mlx` (lines 116-174): `genOutcome` is the outcome of
loading the model and calling `generate` on the templated prompt
(`none` when an exception was raised, caught at line 171). -/
def summarize_with_mlx (text model_name : Chars) (genOutcome : Option Chars) : Option Chars :=
  match genOutcome with
  | none => none
  | some response =>
      some (extractMlxSummary model_name (create_prompt_for_model text model_name) response)

/-! ### Transformers adapter (`summarize_with_transformers`, lines 176-241) -/

/-- The check at line 186: `any(name in model_name.lower() for name in
["bart", "t5", "pegasus"])`. -/
def isEncDecModel (model_name : Chars) : Bool :=
  containsSub (chars "bart") (lowerStr model_name)
    || containsSub (chars "t5") (lowerStr model_name)
    || containsSub (chars "pegasus") (lowerStr model_name)

/-- Arguments the transformers branch passes to
`pipeline("summarization", ...)` (lines 190-198). -/
structure SummarizationPipelineArgs where
  model : Chars
  max_length : Int
  min_length : Int
  do_sample : Bool
  temperature : ℚ
  top_p : ℚ
deriving DecidableEq

/-- Arguments the causal-LM branch passes to tokenization and
`model.generate` (lines 208-223). -/
structure CausalGenArgs where
  model : Chars
  prompt : Chars
  truncation_max_length : Int
  max_new_tokens : Int
  temperature : ℚ
  top_p : ℚ
  do_sample : Bool
deriving DecidableEq

inductive TransformersCall where
  | pipelineCall (a : SummarizationPipelineArgs)
  | causalCall (g : CausalGenArgs)
deriving DecidableEq

/-- The external call `summarize_with_transformers` constructs, as a
function of its inputs (lines 186-223). -/
def transformersCall (text model_name : Chars) (max_tokens : Int)
    (temperature top_p : ℚ) : TransformersCall :=
  if isEncDecModel model_name then
    .pipelineCall
      { model := model_name, max_length := max_tokens, min_length := 30,
        do_sample := decide (0 < temperature), temperature := temperature, top_p := top_p }
  else
    .causalCall
      { model := model_name, prompt := create_prompt_for_model text model_name,
        truncation_max_length := 2048, max_new_tokens := max_tokens,
        temperature := temperature, top_p := top_p,
        do_sample := decide (0 < temperature) }

/-! ### Fallback adapter (`fallback_summarization`, lines 243-269) -/

/-- Arguments of the fallback `pipeline("summarization", ...)` call
(lines 251-257): one fixed model, fixed `min_length`, sampling disabled,
only the caller's `max_tokens` flows in (as `max_length`). -/
structure FallbackPipelineArgs where
  model : Chars
  max_length : Int
  min_length : Int
  do_sample : Bool
deriving DecidableEq

def fallbackPipelineArgs (max_tokens : Int) : FallbackPipelineArgs :=
  { model := chars "facebook/bart-large-cnn", max_length := max_tokens,
    min_length := 30, do_sample := false }

def fallbackErrorMsg : Chars :=
  chars "Error: Could not summarize text. All methods failed."

/-- `fallback_summarization` result (lines 259-269): the pipeline's
`summary_text` on success, the fixed error string when an exception was
caught at line 266. -/
def fallback_summarization (pipelineOutcome : Option Chars) : Chars :=
  match pipelineOutcome with
  | some s => s
  | none => fallbackErrorMsg

/-! ### Dispatcher (`main`, lines 271-344) -/

/-- `is_mlx_model(model_name)` (lines 73-75). -/
def is_mlx_model (model_name : Chars) : Bool :=
  containsSub (chars "mlx-community") (lowerStr model_name)

/-- `check_dependencies` outcome (lines 22-67). -/
structure Deps where
  transformers : Bool
  torch : Bool
  mlx : Bool
  mlx_lm : Bool
deriving DecidableEq

/-- One run of `main`: the command-line inputs, probed environment facts,
and the outcomes each backend adapter would produce if invoked. -/
structure RunEnv where
  model : Chars
  useMlx : Bool
  appleSilicon : Bool
  deps : Deps
  mlxResult : Option Chars
  tfResult : Option Chars
  fbResult : Chars

/-- Python truthiness of the `summary` variable (`str` or `None`). -/
def truthy : Option Chars → Bool
  | none => false
  | some s => !s.isEmpty

/-- Guard of Strategy 1 (line 311). -/
def mlxStageRun (e : RunEnv) : Bool :=
  e.useMlx && is_mlx_model e.model && e.appleSilicon && e.deps.mlx_lm

def summaryAfterMlx (e : RunEnv) : Option Chars :=
  if mlxStageRun e then e.mlxResult else none

/-- Guard of Strategy 2 (line 317): `not summary and deps['transformers']
and not is_mlx_model(args.model)`. -/
def tfStageRun (e : RunEnv) : Bool :=
  !truthy (summaryAfterMlx e) && e.deps.transformers && !is_mlx_model e.model

def summaryAfterTf (e : RunEnv) : Option Chars :=
  if tfStageRun e then e.tfResult else summaryAfterMlx e

/-- Guard of Strategy 3 (line 323): `not summary and deps['transformers']`. -/
def fbStageRun (e : RunEnv) : Bool :=
  !truthy (summaryAfterTf e) && e.deps.transformers

def finalSummary (e : RunEnv) : Option Chars :=
  if fbStageRun e then some e.fbResult else summaryAfterTf e

def errorPre : Chars := chars "Error:"

/-- Python `summary.startswith("Error:")`. -/
def startsWithError (s : Chars) : Bool := errorPre.isPrefixOf s

/-- Final check at line 329: `not summary or summary.startswith("Error:")`. -/
def dispatchFailed (e : RunEnv) : Bool :=
  match finalSummary e with
  | none => true
  | some s => s.isEmpty || startsWithError s

def mlxHintMsg : Chars :=
  chars "Error: MLX-community models require MLX framework on Apple Silicon. Install dependencies from the app menu."

def genericFailMsg : Chars :=
  chars "Error: All summarization methods failed. Check dependencies."

/-- The diagnostic printed to the error stream on dispatch failure
(lines 330-333). -/
def failDiagnostic (e : RunEnv) : Option Chars :=
  if dispatchFailed e then
    some (if is_mlx_model e.model then mlxHintMsg else genericFailMsg)
  else none

def exitCodeOf (e : RunEnv) : Nat := if dispatchFailed e then 1 else 0

/-- What `main` prints to standard output (line 344), when it does. -/
def stdoutOf (e : RunEnv) : Option Chars :=
  if dispatchFailed e then none else finalSummary e

def emptyInputMsg : Chars := chars "Error: Input text is empty"

/-- Observable outcome of one run of `main`. -/
structure MainTrace where
  exitCode : Nat
  errMsg : Option Chars
  output : Option Chars
  mlxAtt : Bool
  tfAtt : Bool
  fbAtt : Bool
deriving DecidableEq

/-- `main` (lines 271-344): `fileContent` is the outcome of reading the
input file (`none` when `open`/`read` raised, caught at line 299); the
text is stripped at line 295 and checked for emptiness at line 303 before
any backend runs. -/
def runMain (fileContent : Option Chars) (e : RunEnv) : MainTrace :=
  match fileContent with
  | none =>
      { exitCode := 1, errMsg := some (chars "Error reading file"), output := none,
        mlxAtt := false, tfAtt := false, fbAtt := false }
  | some content =>
      if (pyStrip content).isEmpty then
        { exitCode := 1, errMsg := some emptyInputMsg, output := none,
          mlxAtt := false, tfAtt := false, fbAtt := false }
      else
        { exitCode := exitCodeOf e, errMsg := failDiagnostic e, output := stdoutOf e,
          mlxAtt := mlxStageRun e, tfAtt := tfStageRun e, fbAtt := fbStageRun e }

/-! ### Helper lemmas -/

lemma isPrefixOf_exists_suffix :
    ∀ {pat s : Chars}, pat.isPrefixOf s = true → ∃ t, s = pat ++ t := by
  intro pat
  induction pat with
  | nil => intro s _; exact ⟨s, rfl⟩
  | cons a as ih =>
    intro s h
    cases s with
    | nil => simp [List.isPrefixOf] at h
    | cons b bs =>
      simp only [List.isPrefixOf, Bool.and_eq_true, beq_iff_eq] at h
      obtain ⟨t, ht⟩ := ih h.2
      exact ⟨t, by simp [h.1, ht]⟩

lemma isPrefixOf_append_self (pat t : Chars) : pat.isPrefixOf (pat ++ t) = true := by
  induction pat with
  | nil => simp [List.isPrefixOf]
  | cons a as ih => simp [List.isPrefixOf, ih]

lemma beforeFirst_splits (pat : Chars) :
    ∀ s : Chars, containsSub pat s = true →
      ∃ post, s = beforeFirst pat s ++ pat ++ post := by
  intro s
  induction s with
  | nil =>
    intro h
    simp only [containsSub, List.isEmpty_iff] at h
    exact ⟨[], by simp [beforeFirst, h]⟩
  | cons c rest ih =>
    intro h
    by_cases hp : pat.isPrefixOf (c :: rest) = true
    · obtain ⟨t, ht⟩ := isPrefixOf_exists_suffix hp
      exact ⟨t, by simp [beforeFirst, hp, ht]⟩
    · have hrest : containsSub pat rest = true := by
        simp only [containsSub, Bool.or_eq_true] at h
        cases h with
        | inl h => exact absurd h hp
        | inr h => exact h
      obtain ⟨post, hpost⟩ := ih hrest
      refine ⟨post, ?_⟩
      simp only [beforeFirst, hp, if_false, List.cons_append, List.append_assoc]
      rw [List.append_assoc] at hpost
      exact congrArg (c :: ·) hpost

lemma beforeFirst_minimal (pat : Chars) :
    ∀ s pre post : Chars, s = pre ++ pat ++ post →
      (beforeFirst pat s).length ≤ pre.length := by
  intro s
  induction s with
  | nil => intro pre post _; simp [beforeFirst]
  | cons c rest ih =>
    intro pre post h
    by_cases hp : pat.isPrefixOf (c :: rest) = true
    · simp [beforeFirst, hp]
    · cases pre with
      | nil =>
        exfalso
        simp only [List.nil_append] at h
        rw [h] at hp
        exact hp (isPrefixOf_append_self pat post)
      | cons d pre' =>
        simp only [List.cons_append, List.cons.injEq] at h
        have h2 : rest = pre' ++ pat ++ post := h.2
        have := ih pre' post h2
        have hb : beforeFirst pat (c :: rest) = c :: beforeFirst pat rest := by
          simp [beforeFirst, hp]
        rw [hb, List.length_cons, List.length_cons]
        omega

/-! ### Claim theorems -/

/-- C4: the prompt templater is total (it is a Lean function); every
identifier containing "gemma" case-insensitively and not containing the
earlier-ordered family "smollm" gets the gemma turn-delimited template;
an identifier containing none of smollm/gemma/llama/phi gets the generic
template; matching is first-match-wins, so "smollm" beats every later
family. -/
theorem c4_prompt_templater (text model_name : Chars) :
    (containsSub (chars "gemma") (lowerStr model_name) = true →
      containsSub (chars "smollm") (lowerStr model_name) = false →
      create_prompt_for_model text model_name = gemmaTemplate text)
    ∧ (containsSub (chars "smollm") (lowerStr model_name) = false →
        containsSub (chars "gemma") (lowerStr model_name) = false →
        containsSub (chars "llama") (lowerStr model_name) = false →
        containsSub (chars "phi") (lowerStr model_name) = false →
        create_prompt_for_model text model_name = genericTemplate text)
    ∧ (containsSub (chars "smollm") (lowerStr model_name) = true →
        create_prompt_for_model text model_name = smollmTemplate text) := by
  refine ⟨?_, ?_, ?_⟩ <;> intros <;> simp [create_prompt_for_model, *]

theorem c4_prompt_templater_witness :
    containsSub (chars "gemma") (lowerStr (chars "google/Gemma-3-1b-it")) = true
    ∧ containsSub (chars "smollm") (lowerStr (chars "google/Gemma-3-1b-it")) = false
    ∧ create_prompt_for_model (chars "Some text.") (chars "google/Gemma-3-1b-it")
        = gemmaTemplate (chars "Some text.") :=
  ⟨by decide, by decide,
    (c4_prompt_templater (chars "Some text.") (chars "google/Gemma-3-1b-it")).1
      (by decide) (by decide)⟩

/-- C6: when the `--use-mlx` flag is absent the MLX stage is never
attempted, whatever the model identifier, the hardware, and the available
libraries are. -/
theorem c6_no_mlx_without_flag (e : RunEnv) (h : e.useMlx = false) :
    mlxStageRun e = false := by
  simp [mlxStageRun, h]

def c6Env : RunEnv :=
  { model := chars "mlx-community/gemma-3-1b-it-8bit", useMlx := false,
    appleSilicon := true,
    deps := { transformers := true, torch := true, mlx := true, mlx_lm := true },
    mlxResult := some (chars "a summary"), tfResult := none, fbResult := chars "fb" }

theorem c6_no_mlx_without_flag_witness :
    c6Env.useMlx = false ∧ mlxStageRun c6Env = false :=
  ⟨rfl, c6_no_mlx_without_flag c6Env rfl⟩

/-- C7: the fallback stage always calls the one fixed summarization model
"facebook/bart-large-cnn" with `min_length = 30` and sampling disabled,
the caller's max-tokens being the only caller input used (as
`max_length`; the source function does not even receive the caller's
model/temperature/top-p); a caught exception yields a result string
beginning with "Error:" instead of propagating. -/
theorem c7_fallback_fixed_call (max_tokens : Int) :
    (fallbackPipelineArgs max_tokens).model = chars "facebook/bart-large-cnn"
    ∧ (fallbackPipelineArgs max_tokens).min_length = 30
    ∧ (fallbackPipelineArgs max_tokens).do_sample = false
    ∧ (fallbackPipelineArgs max_tokens).max_length = max_tokens
    ∧ startsWithError (fallback_summarization none) = true
    ∧ (∀ s : Chars, fallback_summarization (some s) = s) :=
  ⟨rfl, rfl, rfl, rfl, by decide, fun _ => rfl⟩

/-- C9: for every model identifier in the encoder-decoder families
bart/t5/pegasus, the general stage builds the summarization-pipeline
call, and that call samples exactly when the temperature is positive. -/
theorem c9_sampling_iff_positive_temperature (text model_name : Chars)
    (max_tokens : Int) (temperature top_p : ℚ)
    (h : isEncDecModel model_name = true) :
    ∃ a, transformersCall text model_name max_tokens temperature top_p
        = .pipelineCall a
      ∧ (a.do_sample = true ↔ 0 < temperature)
      ∧ a.model = model_name ∧ a.max_length = max_tokens ∧ a.min_length = 30 := by
  refine ⟨{ model := model_name, max_length := max_tokens, min_length := 30,
            do_sample := decide (0 < temperature), temperature := temperature,
            top_p := top_p }, ?_, ?_, rfl, rfl, rfl⟩
  · simp [transformersCall, h]
  · simp

theorem c9_sampling_iff_positive_temperature_witness :
    isEncDecModel (chars "facebook/bart-large-cnn") = true
    ∧ (∃ a, transformersCall (chars "text") (chars "facebook/bart-large-cnn") 100 0 1
          = .pipelineCall a
        ∧ (a.do_sample = true ↔ (0:ℚ) < 0)
        ∧ a.model = chars "facebook/bart-large-cnn" ∧ a.max_length = 100
        ∧ a.min_length = 30) :=
  ⟨by decide,
    c9_sampling_iff_positive_temperature (chars "text")
      (chars "facebook/bart-large-cnn") 100 0 1 (by decide)⟩

/-- C3: when the MLX generation response contains the model family's end
marker (the end-of-turn tag for gemma-family identifiers, the eot tag for
llama-family identifiers, gemma deciding first as in the source's branch
order), the extracted summary is exactly the part of the response
strictly before the first occurrence of that marker, with surrounding
whitespace stripped: the extraction equals `pyStrip` of `beforeFirst`,
the response decomposes as that part followed by the marker, and that
part is shortest among all such decompositions (so the occurrence split
on is the first one). -/
theorem c3_mlx_marker_extraction (model_name prompt response m : Chars)
    (hm : mlxEndMarker model_name = some m)
    (hc : containsSub m response = true) :
    extractMlxSummary model_name prompt response
        = pyStrip (beforeFirst m response)
      ∧ (∃ post, response = beforeFirst m response ++ m ++ post)
      ∧ (∀ pre post, response = pre ++ m ++ post →
          (beforeFirst m response).length ≤ pre.length) := by
  refine ⟨?_, beforeFirst_splits m response hc,
    fun pre post hp => beforeFirst_minimal m response pre post hp⟩
  unfold mlxEndMarker at hm
  by_cases hg : containsSub (chars "gemma") (lowerStr model_name) = true
  · rw [if_pos hg] at hm
    have hmeq : m = chars "<end_of_turn>" := by
      cases hm; rfl
    subst hmeq
    simp [extractMlxSummary, hg, hc]
  · rw [if_neg hg] at hm
    by_cases hl : containsSub (chars "llama") (lowerStr model_name) = true
    · rw [if_pos hl] at hm
      have hmeq : m = chars "<|eot_id|>" := by
        cases hm; rfl
      subst hmeq
      simp [extractMlxSummary, hg, hl, hc]
    · rw [if_neg hl] at hm
      exact absurd hm (by simp)

theorem c3_mlx_marker_extraction_witness :
    mlxEndMarker (chars "mlx-community/gemma-3-1b-it-8bit")
        = some (chars "<end_of_turn>")
    ∧ containsSub (chars "<end_of_turn>")
        (chars " A short summary. <end_of_turn> trailing junk") = true
    ∧ extractMlxSummary (chars "mlx-community/gemma-3-1b-it-8bit")
        (chars "some prompt") (chars " A short summary. <end_of_turn> trailing junk")
        = pyStrip (beforeFirst (chars "<end_of_turn>")
            (chars " A short summary. <end_of_turn> trailing junk")) :=
  ⟨by decide, by decide,
    (c3_mlx_marker_extraction (chars "mlx-community/gemma-3-1b-it-8bit")
      (chars "some prompt") (chars " A short summary. <end_of_turn> trailing junk")
      (chars "<end_of_turn>") (by decide) (by decide)).1⟩

/-- C5: whenever the transformers library is available and the summary
accumulated by the first two stages is not usable (still `None` or the
empty string), the fallback stage is attempted — the guard at line 323
does not look at the model identifier, so this includes mlx-community
models. -/
theorem c5_fallback_always_attempted (e : RunEnv)
    (ht : e.deps.transformers = true)
    (hs : truthy (summaryAfterTf e) = false) :
    fbStageRun e = true := by
  simp [fbStageRun, ht, hs]

def c5Env : RunEnv :=
  { model := chars "mlx-community/gemma-3-1b-it-8bit", useMlx := true,
    appleSilicon := true,
    deps := { transformers := true, torch := true, mlx := true, mlx_lm := true },
    mlxResult := none, tfResult := none, fbResult := chars "fb" }

theorem c5_fallback_always_attempted_witness :
    c5Env.deps.transformers = true
    ∧ truthy (summaryAfterTf c5Env) = false
    ∧ is_mlx_model c5Env.model = true
    ∧ fbStageRun c5Env = true :=
  ⟨rfl, by decide, by decide, c5_fallback_always_attempted c5Env rfl (by decide)⟩

/-- C8: a run whose input file reads successfully but whose stripped text
is empty exits with code 1, reports "Error: Input text is empty" on the
error stream, and invokes no backend adapter at all. -/
theorem c8_empty_input (content : Chars) (e : RunEnv)
    (h : pyStrip content = []) :
    runMain (some content) e =
      { exitCode := 1, errMsg := some emptyInputMsg, output := none,
        mlxAtt := false, tfAtt := false, fbAtt := false } := by
  simp [runMain, h]

def c8Env : RunEnv :=
  { model := chars "facebook/bart-large-cnn", useMlx := false,
    appleSilicon := false,
    deps := { transformers := true, torch := true, mlx := false, mlx_lm := false },
    mlxResult := none, tfResult := some (chars "s"), fbResult := chars "f" }

theorem c8_empty_input_witness :
    pyStrip (chars "  \n\t ") = []
    ∧ runMain (some (chars "  \n\t ")) c8Env =
        { exitCode := 1, errMsg := some emptyInputMsg, output := none,
          mlxAtt := false, tfAtt := false, fbAtt := false } :=
  ⟨by decide, c8_empty_input (chars "  \n\t ") c8Env (by decide)⟩

def c1Model : Chars := chars "mlx-community/gemma-3-1b-it-8bit"

def c1Env (apple torchA mlxA mlxlm : Bool) (mr tr : Option Chars) (fb : Chars) : RunEnv :=
  { model := c1Model, useMlx := false, appleSilicon := apple,
    deps := { transformers := true, torch := torchA, mlx := mlxA, mlx_lm := mlxlm },
    mlxResult := mr, tfResult := tr, fbResult := fb }

/-- C1 counterexample: with model "mlx-community/gemma-3-1b-it-8bit",
`--use-mlx` unset and the transformers library available, the general
transformers stage is NOT attempted (its guard at line 317 requires the
model not to be an mlx-community model), contrary to the claim that it
is attempted; the MLX stage is indeed skipped. -/
theorem c1_counterexample :
    mlxStageRun (c1Env true true true true none (some (chars "a transformers summary"))
        (chars "fb")) = false
    ∧ (c1Env true true true true none (some (chars "a transformers summary"))
        (chars "fb")).deps.transformers = true
    ∧ tfStageRun (c1Env true true true true none (some (chars "a transformers summary"))
        (chars "fb")) = false := by
  refine ⟨by decide, rfl, by decide⟩

/-- C1 amended: with model "mlx-community/gemma-3-1b-it-8bit",
`--use-mlx` unset and the transformers library available, the MLX stage
is skipped AND the general transformers stage is skipped as well (the
model identifier is in the accelerated namespace), so the fallback stage
is the one attempted; if the fallback's result is an error string, the
run fails with the MLX-specific missing-dependency hint rather than the
generic failure message, and exits 1. -/
theorem c1_dispatch_amended (apple torchA mlxA mlxlm : Bool)
    (mr tr : Option Chars) (fb : Chars)
    (hfb : startsWithError fb = true) :
    mlxStageRun (c1Env apple torchA mlxA mlxlm mr tr fb) = false
    ∧ tfStageRun (c1Env apple torchA mlxA mlxlm mr tr fb) = false
    ∧ fbStageRun (c1Env apple torchA mlxA mlxlm mr tr fb) = true
    ∧ exitCodeOf (c1Env apple torchA mlxA mlxlm mr tr fb) = 1
    ∧ failDiagnostic (c1Env apple torchA mlxA mlxlm mr tr fb) = some mlxHintMsg := by
  have hU : (c1Env apple torchA mlxA mlxlm mr tr fb).useMlx = false := rfl
  have hT : (c1Env apple torchA mlxA mlxlm mr tr fb).deps.transformers = true := rfl
  have hM : is_mlx_model (c1Env apple torchA mlxA mlxlm mr tr fb).model = true :=
    (by decide : is_mlx_model c1Model = true)
  have h1 : mlxStageRun (c1Env apple torchA mlxA mlxlm mr tr fb) = false := by
    simp [mlxStageRun, hU]
  have h2 : tfStageRun (c1Env apple torchA mlxA mlxlm mr tr fb) = false := by
    simp [tfStageRun, hM]
  have h3 : summaryAfterTf (c1Env apple torchA mlxA mlxlm mr tr fb) = none := by
    simp [summaryAfterTf, summaryAfterMlx, h1, h2]
  have h4 : fbStageRun (c1Env apple torchA mlxA mlxlm mr tr fb) = true := by
    simp [fbStageRun, h3, truthy, hT]
  have h5 : finalSummary (c1Env apple torchA mlxA mlxlm mr tr fb) = some fb := by
    unfold finalSummary
    rw [h4]
    rfl
  have h6 : dispatchFailed (c1Env apple torchA mlxA mlxlm mr tr fb) = true := by
    simp [dispatchFailed, h5, hfb]
  exact ⟨h1, h2, h4, by simp [exitCodeOf, h6],
    by simp [failDiagnostic, h6, hM]⟩

theorem c1_dispatch_amended_witness :
    startsWithError fallbackErrorMsg = true
    ∧ (mlxStageRun (c1Env true true true true none none fallbackErrorMsg) = false
       ∧ tfStageRun (c1Env true true true true none none fallbackErrorMsg) = false
       ∧ fbStageRun (c1Env true true true true none none fallbackErrorMsg) = true
       ∧ exitCodeOf (c1Env true true true true none none fallbackErrorMsg) = 1
       ∧ failDiagnostic (c1Env true true true true none none fallbackErrorMsg)
           = some mlxHintMsg) :=
  ⟨by decide,
    c1_dispatch_amended true true true true none none fallbackErrorMsg (by decide)⟩

def c2Env : RunEnv :=
  { model := chars "mlx-community/test-model", useMlx := true,
    appleSilicon := true,
    deps := { transformers := true, torch := true, mlx := true, mlx_lm := true },
    mlxResult := some (chars "Error: generation failed"), tfResult := none,
    fbResult := chars "a fallback summary" }

/-- C2 counterexample: the MLX stage returns the non-empty explicit error
string "Error: generation failed" while the transformers library is
available; the claim says the dispatcher then advances to the next
stage, but in the code no further stage is attempted (the advance guards
test only emptiness) and the run ends failed with exit code 1. -/
theorem c2_counterexample :
    truthy c2Env.mlxResult = true
    ∧ startsWithError (chars "Error: generation failed") = true
    ∧ mlxStageRun c2Env = true
    ∧ c2Env.deps.transformers = true
    ∧ tfStageRun c2Env = false
    ∧ fbStageRun c2Env = false
    ∧ exitCodeOf c2Env = 1 := by
  refine ⟨by decide, by decide, by decide, rfl, by decide, by decide, by decide⟩

/-- C2 amended: a stage result is treated as final exactly when it is
non-empty: a non-empty result — error string or not — stops the
dispatcher (no later stage is attempted and it becomes the final
summary), while an empty or absent result advances; the run ends in DONE
(exit code 0) exactly when the final summary is non-empty and does not
start with "Error:", so a non-empty error-string result stops the
dispatcher but leads to FAILED rather than DONE. -/
theorem c2_dispatch_stop_amended (e : RunEnv) :
    (truthy (summaryAfterMlx e) = true →
      tfStageRun e = false ∧ fbStageRun e = false
      ∧ finalSummary e = summaryAfterMlx e)
    ∧ (truthy (summaryAfterTf e) = true →
      fbStageRun e = false ∧ finalSummary e = summaryAfterTf e)
    ∧ (exitCodeOf e = 0 ↔
        ∃ s, finalSummary e = some s ∧ s.isEmpty = false
          ∧ startsWithError s = false) := by
  refine ⟨?_, ?_, ?_⟩
  · intro h
    have htf : tfStageRun e = false := by simp [tfStageRun, h]
    have hst : summaryAfterTf e = summaryAfterMlx e := by simp [summaryAfterTf, htf]
    have hfb : fbStageRun e = false := by simp [fbStageRun, hst, h]
    exact ⟨htf, hfb, by simp [finalSummary, hfb, hst]⟩
  · intro h
    have hfb : fbStageRun e = false := by simp [fbStageRun, h]
    exact ⟨hfb, by simp [finalSummary, hfb]⟩
  · unfold exitCodeOf dispatchFailed
    cases hf : finalSummary e with
    | none => simp
    | some s =>
      by_cases hb : (s.isEmpty || startsWithError s) = true
      · simp only [hb, if_true]
        simp only [Bool.or_eq_true] at hb
        constructor
        · intro h; exact absurd h (by simp)
        · rintro ⟨t, ht, h1, h2⟩
          cases ht
          cases hb with
          | inl hb => rw [hb] at h1; exact absurd h1 (by simp)
          | inr hb => rw [hb] at h2; exact absurd h2 (by simp)
      · have hb' : (s.isEmpty || startsWithError s) = false := by
          simp only [Bool.not_eq_true] at hb
          exact hb
        simp only [hb', if_false]
        simp only [Bool.or_eq_false_iff] at hb'
        exact ⟨fun _ => ⟨s, rfl, hb'.1, hb'.2⟩, fun _ => rfl⟩

def c2WitEnv : RunEnv :=
  { model := chars "mlx-community/test-model", useMlx := true,
    appleSilicon := true,
    deps := { transformers := true, torch := true, mlx := true, mlx_lm := true },
    mlxResult := some (chars "A fine summary."), tfResult := none,
    fbResult := chars "fb" }

theorem c2_dispatch_stop_amended_witness :
    truthy (summaryAfterMlx c2WitEnv) = true
    ∧ (tfStageRun c2WitEnv = false ∧ fbStageRun c2WitEnv = false
       ∧ finalSummary c2WitEnv = summaryAfterMlx c2WitEnv) :=
  ⟨by decide, (c2_dispatch_stop_amended c2WitEnv).1 (by decide)⟩

/-- C10: whenever a run exits with code 0 it has printed a summary to
standard output that is non-empty and does not start with "Error:"; and
conversely, a final summary that is empty or starts with "Error:" always
produces exit code 1. -/
theorem c10_exit_zero_output :
    (∀ (fc : Option Chars) (e : RunEnv), (runMain fc e).exitCode = 0 →
      ∃ s, (runMain fc e).output = some s ∧ s.isEmpty = false
        ∧ startsWithError s = false)
    ∧ (∀ (e : RunEnv) (s : Chars), finalSummary e = some s →
        s.isEmpty = true ∨ startsWithError s = true → exitCodeOf e = 1) := by
  constructor
  · intro fc e h
    cases fc with
    | none => simp [runMain] at h
    | some content =>
      by_cases hc : (pyStrip content).isEmpty = true
      · simp [runMain, hc] at h
      · have hc' : (pyStrip content).isEmpty = false := by
          simp only [Bool.not_eq_true] at hc
          exact hc
        simp only [runMain, hc', if_false] at h ⊢
        unfold exitCodeOf at h
        by_cases hd : dispatchFailed e = true
        · rw [if_pos hd] at h; exact absurd h (by simp)
        · have hd' : dispatchFailed e = false := by
            simp only [Bool.not_eq_true] at hd
            exact hd
          unfold dispatchFailed at hd'
          cases hf : finalSummary e with
          | none => rw [hf] at hd'; simp at hd'
          | some s =>
            rw [hf] at hd'
            simp only [Bool.or_eq_false_iff] at hd'
            refine ⟨s, ?_, hd'.1, hd'.2⟩
            have hdf : dispatchFailed e = false := by
              unfold dispatchFailed
              rw [hf]
              simp [hd'.1, hd'.2]
            simp [stdoutOf, hdf, hf]
  · intro e s hf hb
    unfold exitCodeOf dispatchFailed
    rw [hf]
    cases hb with
    | inl hb => simp [hb]
    | inr hb => simp [hb]

def c10Env : RunEnv :=
  { model := chars "gpt2", useMlx := false, appleSilicon := false,
    deps := { transformers := true, torch := true, mlx := false, mlx_lm := false },
    mlxResult := none, tfResult := some (chars "A concise summary."),
    fbResult := chars "f" }

theorem c10_exit_zero_output_witness :
    (runMain (some (chars "some input text")) c10Env).exitCode = 0
    ∧ ∃ s, (runMain (some (chars "some input text")) c10Env).output = some s
        ∧ s.isEmpty = false ∧ startsWithError s = false :=
  ⟨by decide,
    c10_exit_zero_output.1 (some (chars "some input text")) c10Env (by decide)⟩
